import Mathlib

/-!
# Verification of the LTC insurance metrics aggregation engine

Shallow embedding of the metrics engine of `src/premium.py` (the same
functions appear, line for line, in `src/streamlit_app.py`): the claims
eligibility filter, carrier/date scoping, the aggregation passes of
`get_claims_summary` / `get_policy_metrics`, the derived-metric formulas,
the insight rules of `generate_smart_insights`, and the result cache.

Modelling conventions:
* Snowflake numeric columns that may be NULL are `Option ℚ`; `SUM`/`AVG`/
  `MAX`/`MIN` ignore NULLs and return NULL when no non-null value exists,
  and the Python post-processing `float(v) if v is not None else 0.0`
  is `Option.getD 0`.
* Python floats are modelled as exact rationals `ℚ`.
* `report_end_dt.strftime('%Y-%m-%d')` followed by `to_timestamp` is the
  identity on a calendar date, so the claims date filter compares against
  `lastDay` of the supplied date directly; the policy date filter compares
  the stored string against the formatted date, exactly as in the source.
* The wall-clock `query_time` observability field is omitted.
-/

/-- A calendar date (as produced by `st.date_input`, a Python `datetime.date`). -/
structure Date where
  year : Nat
  month : Nat
  day : Nat
deriving DecidableEq, Repr

/-- Gregorian leap-year test, as used by `last_day`. -/
def isLeap (y : Nat) : Bool :=
  (y % 4 == 0 && y % 100 != 0) || y % 400 == 0

/-- Number of days in a month of a given year. -/
def daysInMonth (y m : Nat) : Nat :=
  if m = 2 then (if isLeap y then 29 else 28)
  else if m = 4 ∨ m = 6 ∨ m = 9 ∨ m = 11 then 30
  else 31

/-- Snowflake `last_day`: the last day of the month of the given date. -/
def lastDay (d : Date) : Date :=
  ⟨d.year, d.month, daysInMonth d.year d.month⟩

/-- Left-pad the decimal representation of `n` with zeros to width `w`. -/
def padNat (w n : Nat) : String :=
  let s := toString n
  ⟨List.replicate (w - s.length) '0'⟩ ++ s

/-- Python `strftime('%Y-%m-%d')` on a date. -/
def formatDate (d : Date) : String :=
  padNat 4 d.year ++ "-" ++ padNat 2 d.month ++ "-" ++ padNat 2 d.day

/-- One row of `CLAIMS_TPA_FEE_WORKSHEET_SNAPSHOT_FACT`.  Columns that only
feed aggregates are nullable (`Option ℚ`); filter columns are plain values
(a NULL filter column fails every equality filter, which is the same as an
unmatched plain value). -/
structure ClaimRow where
  ongoing_rate_month : Int
  is_initial_decision_flag : Int
  carrier_name : String
  snapshot_date : Date
  decision : String
  initial_decisions_facilities : Option ℚ
  initial_decisions_home_health : Option ℚ
  initial_decisions_all_other : Option ℚ
  retro_all_facilities : Option ℚ
  retro_home_health : Option ℚ
  retro_all_other : Option ℚ
  rfb_process_to_decision_tat : Option ℚ
  retro_months : Option ℚ
deriving DecidableEq, Repr

/-- One row of `POLICY_MONTHLY_SNAPSHOT_FACT`.  `policy_snapshot_date` is
kept as the stored string because the source compares it to a formatted
date string (`df.filter(col("POLICY_SNAPSHOT_DATE") == date_str)`). -/
structure PolicyRow where
  carrier_name : String
  policy_snapshot_date : String
  insured_state : String
  policy_status_dim_id : String
  in_waiver_flg : String
  in_nonforfeiture_flg : String
  rated_age : Option ℚ
  annualized_premium : Option ℚ
  lifetime_collected_premium : Option ℚ
  total_active_claims : Option ℚ
  total_rfbs : Option ℚ
  total_approved_rfbs : Option ℚ
deriving DecidableEq, Repr

/-- Snowflake `SUM` over a column: NULLs are ignored; the result is NULL
when there is no non-null value. -/
def sumOpt (l : List (Option ℚ)) : Option ℚ :=
  match l.filterMap id with
  | [] => none
  | xs => some xs.sum

/-- Snowflake `AVG` over a column: mean of the non-null values, NULL when
there is no non-null value. -/
def avgOpt (l : List (Option ℚ)) : Option ℚ :=
  match l.filterMap id with
  | [] => none
  | xs => some (xs.sum / (xs.length : ℚ))

/-- Snowflake `MAX` over a column (NULLs ignored). -/
def maxOpt (l : List (Option ℚ)) : Option ℚ :=
  match l.filterMap id with
  | [] => none
  | x :: xs => some (xs.foldl max x)

/-- Snowflake `MIN` over a column (NULLs ignored). -/
def minOpt (l : List (Option ℚ)) : Option ℚ :=
  match l.filterMap id with
  | [] => none
  | x :: xs => some (xs.foldl min x)

/-- SQL addition `A + B + C`: NULL as soon as one addend is NULL. -/
def addOpt3 (a b c : Option ℚ) : Option ℚ :=
  match a, b, c with
  | some x, some y, some z => some (x + y + z)
  | _, _, _ => none

/-- Clause 1 of the core eligibility filter:
`(ONGOING_RATE_MONTH == 1) & IS_INITIAL_DECISION_FLAG.isin([0, 1])`. -/
def clause1 (r : ClaimRow) : Bool :=
  r.ongoing_rate_month == 1 &&
    (r.is_initial_decision_flag == 0 || r.is_initial_decision_flag == 1)

/-- Clause 2: `(ONGOING_RATE_MONTH == 0) & (IS_INITIAL_DECISION_FLAG == 1)`. -/
def clause2 (r : ClaimRow) : Bool :=
  r.ongoing_rate_month == 0 && r.is_initial_decision_flag == 1

/-- Clause 3:
`(ONGOING_RATE_MONTH == 2) & IS_INITIAL_DECISION_FLAG.isin([0, 1])`. -/
def clause3 (r : ClaimRow) : Bool :=
  r.ongoing_rate_month == 2 &&
    (r.is_initial_decision_flag == 0 || r.is_initial_decision_flag == 1)

/-- The `core_filter` expression of `get_claims_summary`
(`src/premium.py` lines 229-233). -/
def core_filter (r : ClaimRow) : Bool :=
  clause1 r || clause2 r || clause3 r

/-- The `core_filter` expression of `get_claims_list`
(`src/premium.py` lines 291-295), transcribed independently from its own
source site so that the summary/list agreement is a theorem, not a
modelling assumption. -/
def core_filter_list (r : ClaimRow) : Bool :=
  (r.ongoing_rate_month == 1 &&
     (r.is_initial_decision_flag == 0 || r.is_initial_decision_flag == 1)) ||
  (r.ongoing_rate_month == 0 && r.is_initial_decision_flag == 1) ||
  (r.ongoing_rate_month == 2 &&
     (r.is_initial_decision_flag == 0 || r.is_initial_decision_flag == 1))

/-- `if carrier_name: df = df.filter(col("CARRIER_NAME") == carrier_name)`.
Python truthiness: `None` and the empty string leave the view unfiltered. -/
def applyCarrierFilter {α : Type} (co : Option String) (name : α → String)
    (df : List α) : List α :=
  match co with
  | none => df
  | some c => if c = "" then df else df.filter (fun r => name r == c)

/-- The carrier predicate an individual row must satisfy to survive
`applyCarrierFilter`. -/
def carrierSel (co : Option String) (nm : String) : Bool :=
  match co with
  | none => true
  | some c => if c = "" then true else nm == c

/-- The claims date filter of both claims queries:
`col("SNAPSHOT_DATE") == last_day(to_timestamp(lit(date_str)))`, where
`date_str = report_end_dt.strftime('%Y-%m-%d')` round-trips to the date
itself. -/
def claimsDateMatch (dt : Date) (r : ClaimRow) : Bool :=
  r.snapshot_date == lastDay dt

/-- `if report_end_dt: df = df.filter(...)` for the claims queries. -/
def applyClaimsDate (dt : Option Date) (df : List ClaimRow) : List ClaimRow :=
  match dt with
  | none => df
  | some d => df.filter (claimsDateMatch d)

/-- The claims date predicate an individual row must satisfy. -/
def claimsDateSel (dt : Option Date) (r : ClaimRow) : Bool :=
  match dt with
  | none => true
  | some d => claimsDateMatch d r

/-- The policy date filter:
`df.filter(col("POLICY_SNAPSHOT_DATE") == date_str)` — exact string
equality against the formatted date, with no `last_day` normalization. -/
def policyDateMatch (dt : Date) (p : PolicyRow) : Bool :=
  p.policy_snapshot_date == formatDate dt

/-- `if snapshot_date: df = df.filter(...)` for the policy queries. -/
def applyPolicyDate (dt : Option Date) (df : List PolicyRow) : List PolicyRow :=
  match dt with
  | none => df
  | some d => df.filter (policyDateMatch d)

/-- The policy date predicate an individual row must satisfy. -/
def policyDateSel (dt : Option Date) (p : PolicyRow) : Bool :=
  match dt with
  | none => true
  | some d => policyDateMatch d p

/-- The filtered claims view built by `get_claims_summary`: core filter,
then carrier, then report-end date (`src/premium.py` lines 226-241). -/
def claimsViewSummary (rows : List ClaimRow) (carrier_name : Option String)
    (report_end_dt : Option Date) : List ClaimRow :=
  applyClaimsDate report_end_dt
    (applyCarrierFilter carrier_name (fun r => r.carrier_name)
      (rows.filter core_filter))

/-- The filtered claims view built by `get_claims_list`
(`src/premium.py` lines 289-303), transcribed independently. -/
def claimsViewList (rows : List ClaimRow) (carrier_name : Option String)
    (report_end_dt : Option Date) : List ClaimRow :=
  applyClaimsDate report_end_dt
    (applyCarrierFilter carrier_name (fun r => r.carrier_name)
      (rows.filter core_filter_list))

/-- The filtered policy view of `get_policy_metrics`: carrier, then
snapshot date (`src/premium.py` lines 323-330). -/
def policyView (rows : List PolicyRow) (carrier_name : Option String)
    (snapshot_date : Option Date) : List PolicyRow :=
  applyPolicyDate snapshot_date
    (applyCarrierFilter carrier_name (fun p => p.carrier_name) rows)

/-- The dictionary returned by `get_claims_summary` (metric name → float),
as a record.  `query_time` is omitted. -/
structure ClaimsSummary where
  total_claims : ℚ
  facility_claims : ℚ
  home_health_claims : ℚ
  other_claims : ℚ
  total_retro_claims : ℚ
  avg_processing_time : ℚ
  avg_retro_months : ℚ
  max_tat : ℚ
  min_tat : ℚ
  approved_claims : ℚ
  denied_claims : ℚ
  in_assessment_claims : ℚ
  approval_rate : ℚ
  retro_percentage : ℚ
  initial_decisions : ℚ
  ongoing_decisions : ℚ
  restoration_decisions : ℚ
deriving DecidableEq, Repr

/-- `get_claims_summary` (`src/premium.py` lines 221-284): aggregate pass,
decision counts, derived rates, rate-month counts, all over the one
filtered view.  The `streamlit_app.py` copy is identical except that it
omits `max_tat`/`min_tat`. -/
def get_claims_summary (rows : List ClaimRow) (carrier_name : Option String)
    (report_end_dt : Option Date) : ClaimsSummary :=
  let df := claimsViewSummary rows carrier_name report_end_dt
  let total_claims : ℚ := (df.length : ℚ)
  let approved : ℚ :=
    ((df.filter (fun r => r.decision == "Approved")).length : ℚ)
  let denied : ℚ :=
    ((df.filter (fun r => r.decision == "Denied")).length : ℚ)
  let in_assessment : ℚ :=
    ((df.filter (fun r =>
        r.decision == "In Assessment" || r.decision == "Pending")).length : ℚ)
  let total_retro_claims : ℚ :=
    (sumOpt (df.map (fun r =>
      addOpt3 r.retro_all_facilities r.retro_home_health r.retro_all_other))).getD 0
  { total_claims := total_claims
    facility_claims :=
      (sumOpt (df.map (fun r => r.initial_decisions_facilities))).getD 0
    home_health_claims :=
      (sumOpt (df.map (fun r => r.initial_decisions_home_health))).getD 0
    other_claims :=
      (sumOpt (df.map (fun r => r.initial_decisions_all_other))).getD 0
    total_retro_claims := total_retro_claims
    avg_processing_time :=
      (avgOpt (df.map (fun r => r.rfb_process_to_decision_tat))).getD 0
    avg_retro_months := (avgOpt (df.map (fun r => r.retro_months))).getD 0
    max_tat := (maxOpt (df.map (fun r => r.rfb_process_to_decision_tat))).getD 0
    min_tat := (minOpt (df.map (fun r => r.rfb_process_to_decision_tat))).getD 0
    approved_claims := approved
    denied_claims := denied
    in_assessment_claims := in_assessment
    approval_rate :=
      if total_claims > 0 then approved / total_claims * 100 else 0
    retro_percentage :=
      if total_claims > 0 then total_retro_claims / total_claims * 100 else 0
    initial_decisions :=
      ((df.filter (fun r => r.ongoing_rate_month == 0)).length : ℚ)
    ongoing_decisions :=
      ((df.filter (fun r => r.ongoing_rate_month == 1)).length : ℚ)
    restoration_decisions :=
      ((df.filter (fun r => r.ongoing_rate_month == 2)).length : ℚ) }

/-- The dictionary returned by `get_policy_metrics` (metric name → float),
as a record.  `query_time` is omitted. -/
structure PolicyMetrics where
  total_policies : ℚ
  avg_age : ℚ
  total_premium : ℚ
  avg_premium : ℚ
  total_collected : ℚ
  total_active_claims : ℚ
  total_rfbs : ℚ
  total_approved_rfbs : ℚ
  states_count : ℚ
  in_waiver : ℚ
  in_forfeiture : ℚ
  active_policies : ℚ
  lapse_rate : ℚ
  policies_with_claims : ℚ
  avg_claims_per_policy : ℚ
deriving DecidableEq, Repr

/-- `get_policy_metrics` (`src/premium.py` lines 318-363): aggregate pass,
flag counts, lapse rate and claims-per-policy over the filtered view. -/
def get_policy_metrics (rows : List PolicyRow) (carrier_name : Option String)
    (snapshot_date : Option Date) : PolicyMetrics :=
  let df := policyView rows carrier_name snapshot_date
  let total_policies : ℚ := (df.length : ℚ)
  let total_active_claims : ℚ :=
    (sumOpt (df.map (fun p => p.total_active_claims))).getD 0
  let active_policies : ℚ :=
    ((df.filter (fun p =>
        p.policy_status_dim_id == "ACTIVE" ||
        p.policy_status_dim_id == "Active")).length : ℚ)
  { total_policies := total_policies
    avg_age := (avgOpt (df.map (fun p => p.rated_age))).getD 0
    total_premium := (sumOpt (df.map (fun p => p.annualized_premium))).getD 0
    avg_premium := (avgOpt (df.map (fun p => p.annualized_premium))).getD 0
    total_collected :=
      (sumOpt (df.map (fun p => p.lifetime_collected_premium))).getD 0
    total_active_claims := total_active_claims
    total_rfbs := (sumOpt (df.map (fun p => p.total_rfbs))).getD 0
    total_approved_rfbs :=
      (sumOpt (df.map (fun p => p.total_approved_rfbs))).getD 0
    states_count := (((df.map (fun p => p.insured_state)).dedup).length : ℚ)
    in_waiver := ((df.filter (fun p => p.in_waiver_flg == "Yes")).length : ℚ)
    in_forfeiture :=
      ((df.filter (fun p => p.in_nonforfeiture_flg == "Yes")).length : ℚ)
    active_policies := active_policies
    lapse_rate :=
      if total_policies > 0 then
        (total_policies - active_policies) / total_policies * 100
      else 0
    policies_with_claims :=
      ((df.filter (fun p =>
          match p.total_active_claims with
          | some v => v > 0
          | none => false)).length : ℚ)
    avg_claims_per_policy :=
      if total_policies > 0 then total_active_claims / total_policies else 0 }

/-- An insight emitted by `generate_smart_insights`, identified by its
(constant) title; the message string interpolates the metric values and is
presentation-only. -/
inductive Insight where
  | excellentPerformance
  | actionRequired
  | fastProcessing
  | slowProcessing
  | highVolumePeriod
  | strongRetention
  | retentionRisk
  | premiumPortfolio
deriving DecidableEq, Repr

/-- The `summary_data` / `data_type` pair passed to
`generate_smart_insights`: either a claims summary or a policy metrics
bundle. -/
inductive BundleData where
  | claims (s : ClaimsSummary)
  | policy (m : PolicyMetrics)

/-- `generate_smart_insights` (`src/premium.py` lines 413-462): an ordered
rule list appended branch by branch; `if`/`elif` pairs are modelled by
nested `if`s, and the policy premium rule recomputes
`avg_prem = total_premium / total if total > 0 else 0` locally. -/
def generate_smart_insights : BundleData → List Insight
  | .claims s =>
    let total := s.total_claims
    let approval_rate := s.approval_rate
    let avg_tat := s.avg_processing_time
    (if approval_rate > 80 then [Insight.excellentPerformance]
     else if approval_rate < 60 then [Insight.actionRequired] else []) ++
    (if avg_tat < 25 then [Insight.fastProcessing]
     else if avg_tat > 35 then [Insight.slowProcessing] else []) ++
    (if total > 100 then [Insight.highVolumePeriod] else [])
  | .policy m =>
    let total := m.total_policies
    let lapse_rate := m.lapse_rate
    let total_premium := m.total_premium
    (if lapse_rate < 5 then [Insight.strongRetention]
     else if lapse_rate > 10 then [Insight.retentionRisk] else []) ++
    (let avg_prem := if total > 0 then total_premium / total else 0
     if avg_prem > 4000 then [Insight.premiumPortfolio] else [])

/-- The cache key of the summary queries: the serializable filter
parameters (the `_session` argument is excluded from the key by the
leading underscore in the source). -/
structure FilterSpec where
  carrier : Option String
  asOfDate : Option Date
deriving DecidableEq, Repr

/-- Modelled from the spec: a `CacheEntry` of the Result Cache (§3) —
the cache implementation behind `@st.cache_data(ttl=300)` is host-framework
code, not part of `src/`; only the TTL constant 300 and the key discipline
come from the source. -/
structure CacheEntry (κ ν : Type) where
  key : κ
  value : ν
  created_at : Nat
deriving DecidableEq, Repr

/-- Modelled from the spec: the Result Cache state, a map from keys to
entries (§4.5). -/
structure CacheState (κ ν : Type) where
  entries : List (CacheEntry κ ν)
deriving DecidableEq, Repr

/-- The empty cache (a fresh cache instance). -/
def emptyCache (κ ν : Type) : CacheState κ ν := ⟨[]⟩

/-- Modelled from the spec: cache lookup — an entry is a hit iff its key
matches and `now - created_at < ttl`; entries older than the TTL are
treated as a miss (§4.5). -/
def lookupFresh {κ ν : Type} [DecidableEq κ] (c : CacheState κ ν) (k : κ)
    (now ttl : Nat) : Option ν :=
  match c.entries.find? (fun e => e.key == k) with
  | some e => if now - e.created_at < ttl then some e.value else none
  | none => none

/-- Modelled from the spec: `get_or_compute(key, ttl, compute_fn)` (§4.5) —
on a fresh hit the cached value is returned and the compute function is
not invoked; on a miss the value is computed synchronously and installed
with the current timestamp, replacing any stale entry for the key.  The
returned `Bool` records whether the underlying compute ran. -/
def getOrCompute {κ ν : Type} [DecidableEq κ] (c : CacheState κ ν) (k : κ)
    (now ttl : Nat) (f : κ → ν) : ν × CacheState κ ν × Bool :=
  match lookupFresh c k now ttl with
  | some v => (v, c, false)
  | none =>
    let v := f k
    (v, ⟨⟨k, v, now⟩ :: c.entries.filter (fun e => !(e.key == k))⟩, true)

/-- The compute function cached by `get_claims_summary`: the Fact Source
rows are the ambient session state, the key is the filter pair. -/
def claimsSummaryCompute (rows : List ClaimRow) (k : FilterSpec) :
    ClaimsSummary :=
  get_claims_summary rows k.carrier k.asOfDate

/-- A Python value passed as the `report_end_dt` parameter: the parameter
is untyped in the source, so a caller may hand it a date object or a raw
string. -/
inductive DateParam where
  | pydate (d : Date)
  | pystr (s : String)
deriving DecidableEq, Repr

/-- Errors observable at the request boundary.  `attributeError` is what
Python raises when `.strftime` is looked up on a non-date value;
`malformedFilter` is the rejection the spec's error taxonomy (§7) calls
for and is listed here only so the spec's claim can be stated — no code
path in the source produces it. -/
inductive PyError where
  | attributeError
  | malformedFilter
deriving DecidableEq, Repr

/-- `get_claims_summary` with the raw (untyped) date parameter, following
the source line by line: `if report_end_dt:` is Python truthiness (`None`
and `""` are falsy, so no date filter is applied), and a truthy non-date
value fails at `report_end_dt.strftime(...)` with an attribute error —
before any aggregation query is issued, since the Snowpark view is lazy.
No validity check of the date's content is performed anywhere. -/
def get_claims_summary_pyparam (rows : List ClaimRow)
    (carrier_name : Option String) (report_end_dt : Option DateParam) :
    Except PyError ClaimsSummary :=
  match report_end_dt with
  | none => .ok (get_claims_summary rows carrier_name none)
  | some (.pydate d) => .ok (get_claims_summary rows carrier_name (some d))
  | some (.pystr s) =>
    if s = "" then .ok (get_claims_summary rows carrier_name none)
    else .error .attributeError

/-- The "exactly one clause" eligibility condition of the spec (§4.1):
precisely one of the three clauses of the core filter holds. -/
def exactlyOneClause (r : ClaimRow) : Prop :=
  (clause1 r = true ∧ clause2 r = false ∧ clause3 r = false) ∨
  (clause1 r = false ∧ clause2 r = true ∧ clause3 r = false) ∨
  (clause1 r = false ∧ clause2 r = false ∧ clause3 r = true)

instance (r : ClaimRow) : Decidable (exactlyOneClause r) := by
  unfold exactlyOneClause; infer_instance

/-- A concrete policy row used to exhibit the absence of month-end
normalization on the policy date filter. -/
def samplePolicy : PolicyRow :=
  { carrier_name := "Acme Insurance Co"
    policy_snapshot_date := "2024-10-31"
    insured_state := "OH"
    policy_status_dim_id := "ACTIVE"
    in_waiver_flg := "No"
    in_nonforfeiture_flg := "No"
    rated_age := some 70
    annualized_premium := some 2500
    lifetime_collected_premium := some 30000
    total_active_claims := some 1
    total_rfbs := some 2
    total_approved_rfbs := some 1 }

/-! ## Helper lemmas -/

lemma core_filter_list_eq_core_filter (r : ClaimRow) :
    core_filter_list r = core_filter r := rfl

lemma mem_applyCarrierFilter {α : Type} (co : Option String) (name : α → String)
    (df : List α) (r : α) :
    r ∈ applyCarrierFilter co name df ↔ r ∈ df ∧ carrierSel co (name r) = true := by
  cases co with
  | none => simp [applyCarrierFilter, carrierSel]
  | some c =>
    by_cases hc : c = "" <;>
      simp [applyCarrierFilter, carrierSel, hc, List.mem_filter]

lemma mem_applyClaimsDate (dt : Option Date) (df : List ClaimRow) (r : ClaimRow) :
    r ∈ applyClaimsDate dt df ↔ r ∈ df ∧ claimsDateSel dt r = true := by
  cases dt <;> simp [applyClaimsDate, claimsDateSel, List.mem_filter]

lemma mem_claimsViewSummary (rows : List ClaimRow) (co : Option String)
    (dt : Option Date) (r : ClaimRow) :
    r ∈ claimsViewSummary rows co dt ↔
      r ∈ rows ∧ core_filter r = true ∧ carrierSel co r.carrier_name = true ∧
        claimsDateSel dt r = true := by
  simp only [claimsViewSummary, mem_applyClaimsDate, mem_applyCarrierFilter,
    List.mem_filter]
  tauto

lemma core_filter_iff_exactlyOneClause (r : ClaimRow) :
    core_filter r = true ↔ exactlyOneClause r := by
  simp only [core_filter, clause1, clause2, clause3, exactlyOneClause,
    Bool.or_eq_true, Bool.and_eq_true, Bool.or_eq_false_iff,
    Bool.and_eq_false_iff, beq_iff_eq, beq_eq_false_iff_ne, ne_eq]
  omega

/-! ## Claim theorems -/

/-- C1: a claims row is included in the filtered row set backing every
claims computation (summary bundle and row list) iff it is in scope for
the request's carrier and date predicates and satisfies exactly one of the
three eligibility clauses; a row satisfying none of the clauses is never
included. -/
theorem claims_eligibility_membership (rows : List ClaimRow)
    (co : Option String) (dt : Option Date) (r : ClaimRow) :
    (r ∈ claimsViewSummary rows co dt ↔
      r ∈ rows ∧ carrierSel co r.carrier_name = true ∧
        claimsDateSel dt r = true ∧ exactlyOneClause r) ∧
    (r ∈ claimsViewList rows co dt ↔
      r ∈ rows ∧ carrierSel co r.carrier_name = true ∧
        claimsDateSel dt r = true ∧ exactlyOneClause r) := by
  have hlist : claimsViewList rows co dt = claimsViewSummary rows co dt := rfl
  rw [hlist, mem_claimsViewSummary, core_filter_iff_exactlyOneClause]
  tauto

/-- C5: the summary-bundle computation and the row-list computation build
their filtered claims view with the identical eligibility, carrier and
month-end date predicates, so the same logical row set backs both. -/
theorem summary_list_identical_filter (rows : List ClaimRow)
    (co : Option String) (dt : Option Date) :
    claimsViewSummary rows co dt = claimsViewList rows co dt := rfl

/-- C3: the claims date filter compares the stored snapshot date against
the last day of the supplied date's month — the same predicate for every
day-of-month supplied — while the policy date filter is exact
calendar-date string equality with no month-end normalization (shown on a
stored month-end snapshot that the first day of the same month fails to
match). -/
theorem date_predicate_asymmetry :
    (∀ (y m d1 d2 : Nat) (r : ClaimRow),
        claimsDateMatch ⟨y, m, d1⟩ r = claimsDateMatch ⟨y, m, d2⟩ r) ∧
    (∀ (dt : Date) (r : ClaimRow),
        claimsDateMatch dt r = (r.snapshot_date == lastDay dt)) ∧
    (∀ (dt : Date) (p : PolicyRow),
        policyDateMatch dt p = (p.policy_snapshot_date == formatDate dt)) ∧
    policyDateMatch ⟨2024, 10, 1⟩ samplePolicy = false ∧
    policyDateMatch ⟨2024, 10, 31⟩ samplePolicy = true :=
  ⟨fun _ _ _ _ _ => rfl, fun _ _ => rfl, fun _ _ => rfl, by decide, by decide⟩

/-- C2: the derived-metric formulas with the divide-by-zero policy — each
ratio equals its formula when the denominator (a row count, hence never
negative) is positive and equals exactly 0 otherwise; in particular
`total_policies = 0` yields `lapse_rate = 0` and
`avg_claims_per_policy = 0`, with no division performed. -/
theorem derived_metric_formulas (rows : List ClaimRow) (co : Option String)
    (dt : Option Date) (prows : List PolicyRow) (pco : Option String)
    (pdt : Option Date) :
    ((get_claims_summary rows co dt).approval_rate =
      if (get_claims_summary rows co dt).total_claims > 0 then
        (get_claims_summary rows co dt).approved_claims /
          (get_claims_summary rows co dt).total_claims * 100
      else 0) ∧
    ((get_claims_summary rows co dt).retro_percentage =
      if (get_claims_summary rows co dt).total_claims > 0 then
        (get_claims_summary rows co dt).total_retro_claims /
          (get_claims_summary rows co dt).total_claims * 100
      else 0) ∧
    ((get_policy_metrics prows pco pdt).lapse_rate =
      if (get_policy_metrics prows pco pdt).total_policies > 0 then
        ((get_policy_metrics prows pco pdt).total_policies -
            (get_policy_metrics prows pco pdt).active_policies) /
          (get_policy_metrics prows pco pdt).total_policies * 100
      else 0) ∧
    ((get_policy_metrics prows pco pdt).avg_claims_per_policy =
      if (get_policy_metrics prows pco pdt).total_policies > 0 then
        (get_policy_metrics prows pco pdt).total_active_claims /
          (get_policy_metrics prows pco pdt).total_policies
      else 0) :=
  ⟨rfl, rfl, rfl, rfl⟩

lemma rate_month_filter_partition (l : List ClaimRow)
    (h : ∀ r ∈ l, core_filter r = true) :
    (l.filter (fun r => r.ongoing_rate_month == 0)).length +
      (l.filter (fun r => r.ongoing_rate_month == 1)).length +
      (l.filter (fun r => r.ongoing_rate_month == 2)).length = l.length := by
  induction l with
  | nil => simp
  | cons a t ih =>
    have ha := h a (by simp)
    have ht : ∀ r ∈ t, core_filter r = true := fun r hr => h r (by simp [hr])
    have horm : a.ongoing_rate_month = 0 ∨ a.ongoing_rate_month = 1 ∨
        a.ongoing_rate_month = 2 := by
      simp only [core_filter, clause1, clause2, clause3, Bool.or_eq_true,
        Bool.and_eq_true, beq_iff_eq] at ha
      omega
    have iht := ih ht
    simp only [List.filter_cons, List.length_cons]
    rcases horm with h0 | h0 | h0 <;> simp [h0] <;> omega

/-- C9: the three ongoing-rate-month counts of a claims summary partition
the eligible row set: initial + ongoing + restoration = total_claims,
because the eligibility filter admits only rows with rate month 0, 1 or 2
and all four counts range over the same filtered view. -/
theorem rate_month_counts_partition (rows : List ClaimRow)
    (co : Option String) (dt : Option Date) :
    (get_claims_summary rows co dt).initial_decisions +
      (get_claims_summary rows co dt).ongoing_decisions +
      (get_claims_summary rows co dt).restoration_decisions =
      (get_claims_summary rows co dt).total_claims := by
  have h : ∀ r ∈ claimsViewSummary rows co dt, core_filter r = true :=
    fun r hr => ((mem_claimsViewSummary rows co dt r).mp hr).2.1
  have key := rate_month_filter_partition (claimsViewSummary rows co dt) h
  show ((claimsViewSummary rows co dt).filter
        (fun r => r.ongoing_rate_month == 0)).length +
      ((claimsViewSummary rows co dt).filter
        (fun r => r.ongoing_rate_month == 1)).length +
      (((claimsViewSummary rows co dt).filter
        (fun r => r.ongoing_rate_month == 2)).length : ℚ) =
      ((claimsViewSummary rows co dt).length : ℚ)
  exact_mod_cast key

lemma ratio_pct_bounds (a t : ℚ) (h0 : 0 ≤ a) (hle : a ≤ t) :
    0 ≤ (if t > 0 then a / t * 100 else 0) ∧
      (if t > 0 then a / t * 100 else 0) ≤ 100 := by
  split
  case isTrue h =>
    have h1 : a / t ≤ 1 := (div_le_one h).mpr hle
    have h2 : 0 ≤ a / t := div_nonneg h0 h.le
    constructor <;> nlinarith
  case isFalse h => norm_num

/-- C10: `approval_rate` and `lapse_rate` always lie in `[0, 100]`: the
approved count and the active-policy count are counts over subsets of the
same filtered view whose total row count is the denominator. -/
theorem rates_bounded (rows : List ClaimRow) (co : Option String)
    (dt : Option Date) (prows : List PolicyRow) (pco : Option String)
    (pdt : Option Date) :
    (0 ≤ (get_claims_summary rows co dt).approval_rate ∧
      (get_claims_summary rows co dt).approval_rate ≤ 100) ∧
    (0 ≤ (get_policy_metrics prows pco pdt).lapse_rate ∧
      (get_policy_metrics prows pco pdt).lapse_rate ≤ 100) := by
  constructor
  · have happ : (get_claims_summary rows co dt).approval_rate =
        if ((claimsViewSummary rows co dt).length : ℚ) > 0 then
          (((claimsViewSummary rows co dt).filter
              (fun r => r.decision == "Approved")).length : ℚ) /
            ((claimsViewSummary rows co dt).length : ℚ) * 100
        else 0 := rfl
    rw [happ]
    apply ratio_pct_bounds
    · positivity
    · exact_mod_cast List.length_filter_le _ _
  · have hl : (get_policy_metrics prows pco pdt).lapse_rate =
        if ((policyView prows pco pdt).length : ℚ) > 0 then
          (((policyView prows pco pdt).length : ℚ) -
              (((policyView prows pco pdt).filter (fun p =>
                  p.policy_status_dim_id == "ACTIVE" ||
                  p.policy_status_dim_id == "Active")).length : ℚ)) /
            ((policyView prows pco pdt).length : ℚ) * 100
        else 0 := rfl
    rw [hl]
    have hact : (((policyView prows pco pdt).filter (fun p =>
        p.policy_status_dim_id == "ACTIVE" ||
        p.policy_status_dim_id == "Active")).length : ℚ) ≤
        ((policyView prows pco pdt).length : ℚ) := by
      exact_mod_cast List.length_filter_le _ _
    apply ratio_pct_bounds
    · linarith
    · have : (0 : ℚ) ≤ (((policyView prows pco pdt).filter (fun p =>
          p.policy_status_dim_id == "ACTIVE" ||
          p.policy_status_dim_id == "Active")).length : ℚ) := by positivity
      linarith

/-- C4: the insight engine fires each rule iff its strict threshold is
crossed — approval rate above 80 / below 60, processing time below 25 /
above 35, claims volume above 100, lapse rate below 5 / above 10, and
average premium per policy above 4000 — so values inside the closed bands
fire nothing, and independently satisfied rules all co-fire (each
membership iff holds irrespective of the other rules).  The only
hypothesis, `0 ≤ total_policies`, holds of every bundle the engine
produces since that field is a row count. -/
theorem insight_rules_characterization (s : ClaimsSummary) (m : PolicyMetrics)
    (h : 0 ≤ m.total_policies) :
    (Insight.excellentPerformance ∈ generate_smart_insights (.claims s) ↔
      s.approval_rate > 80) ∧
    (Insight.actionRequired ∈ generate_smart_insights (.claims s) ↔
      s.approval_rate < 60) ∧
    (Insight.fastProcessing ∈ generate_smart_insights (.claims s) ↔
      s.avg_processing_time < 25) ∧
    (Insight.slowProcessing ∈ generate_smart_insights (.claims s) ↔
      s.avg_processing_time > 35) ∧
    (Insight.highVolumePeriod ∈ generate_smart_insights (.claims s) ↔
      s.total_claims > 100) ∧
    (Insight.strongRetention ∈ generate_smart_insights (.policy m) ↔
      m.lapse_rate < 5) ∧
    (Insight.retentionRisk ∈ generate_smart_insights (.policy m) ↔
      m.lapse_rate > 10) ∧
    (Insight.premiumPortfolio ∈ generate_smart_insights (.policy m) ↔
      m.total_premium / m.total_policies > 4000) := by
  have hz : m.total_policies = 0 ∨ 0 < m.total_policies := h.eq_or_lt.imp Eq.symm id
  refine ⟨?_, ?_, ?_, ?_, ?_, ?_, ?_, ?_⟩ <;>
    simp only [generate_smart_insights, List.mem_append] <;>
    split_ifs <;> rcases hz with hz | hz <;>
    simp_all [div_eq_zero_iff] <;> linarith

/-- A concrete claims summary bundle: 120 claims, 85% approval, 22-day
average TAT. -/
def sampleSummary : ClaimsSummary :=
  { total_claims := 120, facility_claims := 40, home_health_claims := 50
    other_claims := 30, total_retro_claims := 12, avg_processing_time := 22
    avg_retro_months := 2, max_tat := 45, min_tat := 5, approved_claims := 102
    denied_claims := 10, in_assessment_claims := 8, approval_rate := 85
    retro_percentage := 10, initial_decisions := 30, ongoing_decisions := 80
    restoration_decisions := 10 }

/-- A concrete policy metrics bundle: 200 policies, 12% lapse, 900000
total premium (4500 average). -/
def sampleMetrics : PolicyMetrics :=
  { total_policies := 200, avg_age := 72, total_premium := 900000
    avg_premium := 4500, total_collected := 5000000
    total_active_claims := 60, total_rfbs := 90, total_approved_rfbs := 70
    states_count := 12, in_waiver := 15, in_forfeiture := 3
    active_policies := 176, lapse_rate := 12, policies_with_claims := 50
    avg_claims_per_policy := 3/10 }

theorem insight_rules_characterization_witness :
    0 ≤ sampleMetrics.total_policies ∧
    ((Insight.excellentPerformance ∈
        generate_smart_insights (.claims sampleSummary) ↔
      sampleSummary.approval_rate > 80) ∧
    (Insight.actionRequired ∈ generate_smart_insights (.claims sampleSummary) ↔
      sampleSummary.approval_rate < 60) ∧
    (Insight.fastProcessing ∈ generate_smart_insights (.claims sampleSummary) ↔
      sampleSummary.avg_processing_time < 25) ∧
    (Insight.slowProcessing ∈ generate_smart_insights (.claims sampleSummary) ↔
      sampleSummary.avg_processing_time > 35) ∧
    (Insight.highVolumePeriod ∈
        generate_smart_insights (.claims sampleSummary) ↔
      sampleSummary.total_claims > 100) ∧
    (Insight.strongRetention ∈ generate_smart_insights (.policy sampleMetrics) ↔
      sampleMetrics.lapse_rate < 5) ∧
    (Insight.retentionRisk ∈ generate_smart_insights (.policy sampleMetrics) ↔
      sampleMetrics.lapse_rate > 10) ∧
    (Insight.premiumPortfolio ∈
        generate_smart_insights (.policy sampleMetrics) ↔
      sampleMetrics.total_premium / sampleMetrics.total_policies > 4000)) :=
  ⟨by norm_num [sampleMetrics],
   insight_rules_characterization sampleSummary sampleMetrics
     (by norm_num [sampleMetrics])⟩

/-- C6: on a fresh cache instance, two `get_claims_summary` calls with the
identical FilterSpec within the 300-second TTL window return the identical
MetricsBundle, and the second call is served from the cache without
re-invoking the compute against the Fact Source. -/
theorem cache_idempotent_within_ttl (rows : List ClaimRow) (k : FilterSpec)
    (t0 t1 : Nat) (_h0 : t0 ≤ t1) (h1 : t1 - t0 < 300) :
    ((getOrCompute
        (getOrCompute (emptyCache FilterSpec ClaimsSummary) k t0 300
          (claimsSummaryCompute rows)).2.1
        k t1 300 (claimsSummaryCompute rows)).1 =
      (getOrCompute (emptyCache FilterSpec ClaimsSummary) k t0 300
        (claimsSummaryCompute rows)).1) ∧
    ((getOrCompute
        (getOrCompute (emptyCache FilterSpec ClaimsSummary) k t0 300
          (claimsSummaryCompute rows)).2.1
        k t1 300 (claimsSummaryCompute rows)).2.2 = false) := by
  have hfirst : getOrCompute (emptyCache FilterSpec ClaimsSummary) k t0 300
      (claimsSummaryCompute rows) =
      (claimsSummaryCompute rows k,
       ⟨[⟨k, claimsSummaryCompute rows k, t0⟩]⟩, true) := by
    simp [getOrCompute, lookupFresh, emptyCache, List.find?]
  rw [hfirst]
  simp [getOrCompute, lookupFresh, List.find?, h1]

/-- The FilterSpec of a representative request. -/
def sampleFilterSpec : FilterSpec :=
  ⟨some "Acme Insurance Co", some ⟨2024, 10, 31⟩⟩

theorem cache_idempotent_within_ttl_witness :
    ((0 : Nat) ≤ 100 ∧ 100 - 0 < 300) ∧
    (((getOrCompute
        (getOrCompute (emptyCache FilterSpec ClaimsSummary) sampleFilterSpec 0
          300 (claimsSummaryCompute [])).2.1
        sampleFilterSpec 100 300 (claimsSummaryCompute [])).1 =
      (getOrCompute (emptyCache FilterSpec ClaimsSummary) sampleFilterSpec 0
        300 (claimsSummaryCompute [])).1) ∧
    ((getOrCompute
        (getOrCompute (emptyCache FilterSpec ClaimsSummary) sampleFilterSpec 0
          300 (claimsSummaryCompute [])).2.1
        sampleFilterSpec 100 300 (claimsSummaryCompute [])).2.2 = false)) :=
  ⟨by decide,
   cache_idempotent_within_ttl [] sampleFilterSpec 0 100 (by decide) (by decide)⟩

/-- C8 counterexample: for an unparseable caller-supplied date (the string
`"not-a-date"`), the engine fails with Python's attribute error — there is
no validity check and no MalformedFilter rejection anywhere in the code. -/
theorem malformed_filter_counterexample :
    get_claims_summary_pyparam [] none (some (DateParam.pystr "not-a-date")) =
      Except.error PyError.attributeError ∧
    get_claims_summary_pyparam [] none (some (DateParam.pystr "not-a-date")) ≠
      Except.error PyError.malformedFilter := by
  have h : get_claims_summary_pyparam [] none
      (some (DateParam.pystr "not-a-date")) =
      Except.error PyError.attributeError := rfl
  exact ⟨h, by rw [h]; simp⟩

/-- C8 amended: the engine performs no validity check on the date
parameter.  A truthy non-date value (any nonempty string, parseable or
not) makes the call fail with an attribute error before any query is
issued — the result does not depend on the fact rows; a date object is
accepted unconditionally; a falsy value (`None` or the empty string) is
silently treated as "no date filter". -/
theorem malformed_filter_amended :
    (∀ (rows : List ClaimRow) (co : Option String) (s : String), s ≠ "" →
        get_claims_summary_pyparam rows co (some (.pystr s)) =
          Except.error PyError.attributeError) ∧
    (∀ (rows : List ClaimRow) (co : Option String) (d : Date),
        get_claims_summary_pyparam rows co (some (.pydate d)) =
          Except.ok (get_claims_summary rows co (some d))) ∧
    (∀ (rows : List ClaimRow) (co : Option String),
        get_claims_summary_pyparam rows co (some (.pystr "")) =
          Except.ok (get_claims_summary rows co none)) := by
  refine ⟨fun rows co s hs => ?_, fun rows co d => rfl, fun rows co => rfl⟩
  simp [get_claims_summary_pyparam, hs]

theorem malformed_filter_amended_witness :
    ("x" : String) ≠ "" ∧
    get_claims_summary_pyparam [] none (some (.pystr "x")) =
      Except.error PyError.attributeError :=
  ⟨by decide, malformed_filter_amended.1 [] none "x" (by decide)⟩
